import Mathlib

/-!
Verification of the ClearHeat web front end against its specification.

The development shallowly embeds:
* the input-validation schema of `lib/schema.ts` (the version built from the
  `asNumber` / `num` / `numOpt` / `bool` helpers, the one the claims cite),
  including the Zod semantics it relies on: per-field parsing that collects
  all field issues and distinguishes aborted (type-level) failures from
  dirty (check-level) ones, and a `superRefine` step that is skipped only
  when some field aborted — on a dirty parse it still runs and its issues
  are appended after the field issues;
* the wizard controller of the calculator component (`runModel`,
  `downloadPdf`, and its React state cells `step` / `reportReady` /
  `loading` / `lastInputs`), with network outcomes made explicit;
* the mock API route `app/api/evaluate/route.ts`.

JavaScript runtime values reaching the validator are modelled by `JsVal`.
Numbers are modelled by `ℚ`: every numeric literal and bound appearing in the
schema is exactly representable, and the comparisons the schema performs are
exact on them.  `Number(s)` string-to-number conversion is modelled for
decimal literals (optional sign, digits, optional fractional part); strings
outside that fragment are treated as non-numeric.
-/

/-- A JavaScript value as seen by the schema: `undef` models `undefined`
(in particular a missing object key). -/
inductive JsVal where
  | null
  | undef
  | bool (b : Bool)
  | num (q : ℚ)
  | str (s : String)
deriving DecidableEq

/-- JavaScript whitespace characters stripped by `String.prototype.trim`
(the ASCII ones; the schema only ever trims form input). -/
def jsWhite (c : Char) : Bool :=
  c = ' ' ∨ c = '\t' ∨ c = '\n' ∨ c = '\r' ∨ c = Char.ofNat 11 ∨ c = Char.ofNat 12

/-- Model of `s.trim()`. -/
def jsTrim (s : String) : String :=
  String.mk (((s.toList.dropWhile jsWhite).reverse.dropWhile jsWhite).reverse)

/-- Numeric value of a digit string. -/
def digitsVal (l : List Char) : Nat :=
  l.foldl (fun a c => 10 * a + (c.toNat - 48)) 0

/-- Model of JavaScript `Number(s)` on a trimmed, non-empty string, for the
decimal-literal fragment: optional sign, digits, optional `.` and fraction
digits (at least one digit overall).  Strings outside this fragment are
treated as non-numeric (`none`). -/
def parseJsNumber (s : String) : Option ℚ :=
  let cs := s.toList
  let signBody : Bool × List Char :=
    match cs with
    | '-' :: t => (true, t)
    | '+' :: t => (false, t)
    | _ => (false, cs)
  let intPart := signBody.2.takeWhile (fun c => c.isDigit)
  let rest := signBody.2.drop intPart.length
  let fracPart : Option (List Char) :=
    match rest with
    | [] => some []
    | '.' :: t => if t.all (fun c => c.isDigit) then some t else none
    | _ => none
  match fracPart with
  | none => none
  | some frac =>
    if intPart.isEmpty ∧ frac.isEmpty then none
    else
      let numer : Int := Int.ofNat (digitsVal intPart * 10 ^ frac.length + digitsVal frac)
      let denom : Int := Int.ofNat (10 ^ frac.length)
      some (Rat.divInt (if signBody.1 then -numer else numer) denom)

/-- The `asNumber` helper of `lib/schema.ts`: numbers pass through; a string
is trimmed, the empty string becomes `undefined`, a finite-number string
becomes that number and any other string is returned unchanged; every other
value is returned unchanged. -/
def asNumber (v : JsVal) : JsVal :=
  match v with
  | .num _ => v
  | .str s =>
    let t := jsTrim s
    if t = "" then .undef
    else
      match parseJsNumber t with
      | some n => .num n
      | none => v
  | _ => v

/-- Zod's default message for a missing (`undefined`) required value. -/
def requiredMsg : String := "Required"

/-- Zod's default message for the `.int()` check. -/
def intMsg : String := "Expected integer, received float"

/-- Zod's default `.min` (inclusive) message, specific to the bound. -/
def minMsg (lo : ℚ) : String :=
  "Number must be greater than or equal to " ++ toString lo

/-- Zod's default `.max` (inclusive) message, specific to the bound. -/
def maxMsg (hi : ℚ) : String :=
  "Number must be less than or equal to " ++ toString hi

/-- Zod's invalid-type message for a number field, by received type. -/
def numTypeMsg (received : String) : String :=
  "Expected number, received " ++ received

/-- Outcome of parsing one field, mirroring Zod's parse status: `ok`
(valid), `dirty` (the value was obtained but some check — `.min`/`.max`/
`.int` — failed and added its issues), or `aborted` (a type-level failure:
wrong type, missing required value, invalid enum; no value exists). -/
inductive FieldResult (α : Type) where
  | ok (a : α)
  | dirty (a : α) (es : List String)
  | aborted (es : List String)
deriving DecidableEq

/-- The issues of a field result (empty when valid). -/
def FieldResult.issues : FieldResult α → List String
  | .ok _ => []
  | .dirty _ es => es
  | .aborted es => es

/-- The parsed value of a field result (absent only when aborted). -/
def FieldResult.value : FieldResult α → Option α
  | .ok a => some a
  | .dirty a _ => some a
  | .aborted _ => none

/-- Map over the value of a field result. -/
def FieldResult.map (f : α → β) : FieldResult α → FieldResult β
  | .ok a => .ok (f a)
  | .dirty a es => .dirty (f a) es
  | .aborted es => .aborted es

/-- The issues produced by the checks of a `z.number()` chain on a number
`n`: an optional `.int()` check and the inclusive `.min lo` / `.max hi`
checks, each contributing its issue when it fails, in declaration order
(none aborts the others). -/
def numIssues (intReq : Bool) (lo hi : ℚ) (n : ℚ) : List String :=
  (if intReq = true ∧ n.den ≠ 1 then [intMsg] else [])
    ++ (if n < lo then [minMsg lo] else [])
    ++ (if hi < n then [maxMsg hi] else [])

/-- `z.number()` with an optional `.int()` check and inclusive `.min lo` /
`.max hi` checks.  A non-number input aborts with a single type error
(`Required` when the value is `undefined`); on a number all checks run,
every failed check contributes its issue in declaration order, and a
failed check only marks the result dirty — the value is kept. -/
def zodNumber (intReq : Bool) (lo hi : ℚ) (v : JsVal) : FieldResult ℚ :=
  match v with
  | .num n =>
    if numIssues intReq lo hi n = [] then .ok n else .dirty n (numIssues intReq lo hi n)
  | .undef => .aborted [requiredMsg]
  | .null => .aborted [numTypeMsg "null"]
  | .bool _ => .aborted [numTypeMsg "boolean"]
  | .str _ => .aborted [numTypeMsg "string"]

/-- The `num(min, max)` helper: `z.preprocess(asNumber, z.number().min(min).max(max))`. -/
def numField (lo hi : ℚ) (v : JsVal) : FieldResult ℚ :=
  zodNumber false lo hi (asNumber v)

/-- The `occupants` field: `z.preprocess(asNumber, z.number().int().min(1).max(20))`. -/
def occupantsField (v : JsVal) : FieldResult ℚ :=
  zodNumber true 1 20 (asNumber v)

/-- The `numOpt(min, max)` helper:
`z.preprocess(asNumber, z.number().min(min).max(max)).optional()`.
`ZodOptional` inspects the raw value: only a raw `undefined` short-circuits
to a missing value; any other raw value (including `""`) is handed to the
inner preprocess/number pipeline. -/
def numOptField (lo hi : ℚ) (v : JsVal) : FieldResult (Option ℚ) :=
  match v with
  | .undef => .ok none
  | _ => (numField lo hi v).map some

/-- The preprocessing step of the `bool` helper of `lib/schema.ts`.  Note
that the source's `v == null` is loose equality: it matches both `null` and
`undefined`, so both become `false`. -/
def boolPre (v : JsVal) : JsVal :=
  match v with
  | .bool _ => v
  | _ =>
    if v = .str "true" ∨ v = .str "on" ∨ v = .str "1" ∨ v = .num 1 then .bool true
    else if v = .str "false" ∨ v = .str "off" ∨ v = .str "0" ∨ v = .num 0
        ∨ v = .null ∨ v = .undef ∨ v = .str "" then .bool false
    else v

/-- `z.boolean()`: a non-boolean input is a type-level failure (aborted). -/
def zodBoolean (v : JsVal) : FieldResult Bool :=
  match v with
  | .bool b => .ok b
  | .undef => .aborted [requiredMsg]
  | _ => .aborted ["Expected boolean"]

/-- The `bool` helper: `z.preprocess(boolPre, z.boolean())`. -/
def boolField (v : JsVal) : FieldResult Bool :=
  zodBoolean (boolPre v)

/-- `z.enum(opts)`: the input must be a string equal to one of the options;
any failure is type-level (aborted). -/
def enumField (opts : List String) (v : JsVal) : FieldResult String :=
  match v with
  | .str s => if s ∈ opts then .ok s else .aborted ["Invalid enum value"]
  | .undef => .aborted [requiredMsg]
  | _ => .aborted ["Expected string"]

/-- A validation issue as surfaced by `safeParse`: its path (the field name)
and its message. -/
structure FieldError where
  path : List String
  message : String
deriving DecidableEq

/-- The raw input bag handed to `clearHeatSchema.safeParse`: one loosely
typed JavaScript value per schema key (`.undef` models a missing key). -/
structure RawInput where
  ber_band : JsVal
  floor_area_m2 : JsVal
  emitters : JsVal
  heating_pattern : JsVal
  wood_use : JsVal
  occupants : JsVal
  fuel_type : JsVal
  fuel_price_eur_per_unit : JsVal
  electricity_price_eur_per_kwh : JsVal
  boiler_efficiency : JsVal
  hp_quote_eur : JsVal
  grant_applied : JsVal
  grant_value_eur : JsVal
  bill_mode : JsVal
  annual_fuel_use : JsVal
  annual_spend_eur : JsVal
deriving DecidableEq

/-- The fully typed `ClearHeatInput` produced by a successful parse
(`z.infer<typeof clearHeatSchema>`).  Enum fields carry the matched string. -/
structure ClearHeatInput where
  ber_band : String
  floor_area_m2 : ℚ
  emitters : String
  heating_pattern : String
  wood_use : String
  occupants : ℚ
  fuel_type : String
  fuel_price_eur_per_unit : ℚ
  electricity_price_eur_per_kwh : ℚ
  boiler_efficiency : ℚ
  hp_quote_eur : ℚ
  grant_applied : Bool
  grant_value_eur : ℚ
  bill_mode : String
  annual_fuel_use : Option ℚ
  annual_spend_eur : Option ℚ
deriving DecidableEq

/-- Zod object-parse accumulator: the issues collected so far (each tagged
with its field path) and, as long as no field has aborted, the partially
applied constructor over the parsed (possibly dirty) values. -/
structure Collect (α : Type) where
  errs : List FieldError
  val : Option α

/-- Start of the accumulation. -/
def Collect.init (a : α) : Collect α := ⟨[], some a⟩

/-- Fold one schema key into the accumulator: its issues are appended
(tagged with the key as path), and the value survives unless the field
aborted — dirty fields keep contributing their value, exactly as Zod's
`mergeObjectSync` drops the object only on an aborted key.  Every key is
parsed regardless of earlier failures. -/
def Collect.field (c : Collect (α → β)) (name : String) (x : FieldResult α) :
    Collect β :=
  { errs := c.errs ++ x.issues.map (fun m => FieldError.mk [name] m),
    val :=
      match c.val, x.value with
      | some g, some a => some (g a)
      | _, _ => none }

/-- The object layer of `clearHeatSchema`: each key parsed with its field
schema, in declaration order. -/
def parseFields (r : RawInput) : Collect ClearHeatInput :=
  Collect.init ClearHeatInput.mk
    |>.field "ber_band" (enumField ["A", "B", "C", "D", "E", "F", "G"] r.ber_band)
    |>.field "floor_area_m2" (numField 20 1000 r.floor_area_m2)
    |>.field "emitters" (enumField ["radiators", "ufh"] r.emitters)
    |>.field "heating_pattern" (enumField ["rare", "normal", "high"] r.heating_pattern)
    |>.field "wood_use" (enumField ["none", "some", "lots"] r.wood_use)
    |>.field "occupants" (occupantsField r.occupants)
    |>.field "fuel_type" (enumField ["gas", "kerosene"] r.fuel_type)
    |>.field "fuel_price_eur_per_unit" (numField 0 10 r.fuel_price_eur_per_unit)
    |>.field "electricity_price_eur_per_kwh" (numField 0 10 r.electricity_price_eur_per_kwh)
    |>.field "boiler_efficiency" (numField (Rat.divInt 3 10) 1 r.boiler_efficiency)
    |>.field "hp_quote_eur" (numField 0 200000 r.hp_quote_eur)
    |>.field "grant_applied" (boolField r.grant_applied)
    |>.field "grant_value_eur" (numField 0 50000 r.grant_value_eur)
    |>.field "bill_mode" (enumField ["annual_fuel_use", "annual_spend", "none"] r.bill_mode)
    |>.field "annual_fuel_use" (numOptField 0 500000 r.annual_fuel_use)
    |>.field "annual_spend_eur" (numOptField 0 200000 r.annual_spend_eur)

/-- All field-level issues of a raw input, every field included, in schema
declaration order. -/
def fieldErrs (r : RawInput) : List FieldError := (parseFields r).errs

/-- `safeParse` of the bare object layer (no refinement): success exactly
when no field raised any issue, otherwise the full collected issue list. -/
def objectParse (r : RawInput) : Except (List FieldError) ClearHeatInput :=
  match (parseFields r).val with
  | some v => if fieldErrs r = [] then .ok v else .error (fieldErrs r)
  | none => .error (fieldErrs r)

/-- The `superRefine` of `clearHeatSchema`: each of the two cross-field
requirements contributes its own issue when violated. -/
def superIssues (v : ClearHeatInput) : List FieldError :=
  (if v.bill_mode = "annual_fuel_use" ∧ v.annual_fuel_use = none
    then [FieldError.mk ["annual_fuel_use"] "Required when bill_mode is annual_fuel_use"]
    else [])
    ++ (if v.bill_mode = "annual_spend" ∧ v.annual_spend_eur = none
      then [FieldError.mk ["annual_spend_eur"] "Required when bill_mode is annual_spend"]
      else [])

/-- `clearHeatSchema.safeParse`.  Zod runs the `superRefine` step unless
the inner object parse *aborted* (some field had a type-level failure, so
no value exists); when fields are merely dirty (failed range/integrality
checks) the refinement still runs on the parsed value and its issues are
appended after the field issues.  The overall parse succeeds exactly when
no issue was raised anywhere. -/
def clearHeatSafeParse (r : RawInput) : Except (List FieldError) ClearHeatInput :=
  match (parseFields r).val with
  | none => .error (fieldErrs r)
  | some v =>
    match fieldErrs r ++ superIssues v with
    | [] => .ok v
    | es => .error es

deriving instance DecidableEq for Except

/-! ## The wizard controller (calculator component)

State cells of the component: `step` (`0`/`1`/`2` for wizard steps 1–3),
`reportReady`, `loading`, and `lastInputs` (the finalized inputs cached at
submission time).  Network interaction and browser side effects are made
explicit: the outcome of the `/run` call is a parameter, and the actions
return the list of effects they perform. -/

/-- The component's state cells. -/
structure WizardState where
  step : Nat
  reportReady : Bool
  loading : Bool
  lastInputs : Option ClearHeatInput
deriving DecidableEq

/-- The initial state: `useState(0)`, `useState(false)`, `useState(false)`,
`useState(null)`. -/
def initialWizardState : WizardState :=
  { step := 0, reportReady := false, loading := false, lastInputs := none }

/-- Side effects the wizard actions perform. -/
inductive Effect where
  | postRun (inputs : ClearHeatInput)
  | postPdf (inputs : ClearHeatInput)
  | saveFileAs (name : String)
  | alert (msg : String)
deriving DecidableEq

/-- Outcome of the awaited `fetch` of the `/run` endpoint:
`success` (2xx status, JSON body parses), `httpError` (non-2xx status),
`transport` (the fetch itself rejected, with the exception's message), or
`badJson` (2xx status but `res.json()` rejected, with that message). -/
inductive EvalOutcome where
  | success
  | httpError (status : Nat) (body : String)
  | transport (msg : String)
  | badJson (msg : String)
deriving DecidableEq

/-- Every outcome other than `success` lands in the `catch` block. -/
def EvalOutcome.isFailure : EvalOutcome → Bool
  | .success => false
  | _ => true

/-- `runModel(values)`: sets `loading`, caches `values` into `lastInputs`,
POSTs `{ inputs: values }` to `/run`; on a non-ok status it throws
`Error("Evaluation failed")`, on success it consumes the JSON body and sets
`reportReady`; any throw is caught and shown via `alert`; `finally` clears
`loading`.  `step` is never touched. -/
def runModel (s : WizardState) (values : ClearHeatInput) (o : EvalOutcome) :
    WizardState × List Effect :=
  let s1 : WizardState := { s with loading := true, lastInputs := some values }
  match o with
  | .success =>
    ({ s1 with reportReady := true, loading := false }, [.postRun values])
  | .httpError _ _ =>
    ({ s1 with loading := false }, [.postRun values, .alert "Evaluation failed"])
  | .transport m =>
    ({ s1 with loading := false }, [.postRun values, .alert m])
  | .badJson m =>
    ({ s1 with loading := false }, [.postRun values, .alert m])

/-- `downloadPdf()`: a no-op when `lastInputs` is null; otherwise POSTs
`{ inputs: lastInputs }` to `/pdf` and saves the binary response as
`clearheat_report.pdf`.  No state cell is written. -/
def downloadPdf (s : WizardState) : WizardState × List Effect :=
  match s.lastInputs with
  | none => (s, [])
  | some inp => (s, [.postPdf inp, .saveFileAs "clearheat_report.pdf"])

/-! ## The mock API route `POST /api/evaluate` -/

/-- Truthiness of the optional `annual_spend_eur` as tested by the route's
`parsed.data.annual_spend_eur ? … : …` (a number is falsy exactly when it
is `0`; a missing value is falsy). -/
def truthyOptNum (o : Option ℚ) : Bool :=
  match o with
  | none => false
  | some q => decide (q ≠ 0)

/-- Body of the route's JSON response. -/
inductive ApiBody where
  | invalid (error : String) (details : List FieldError)
  | payload (verdict : String) (confidence : ℚ)
      (annual_savings_eur : ℚ × ℚ) (payback_years : ℚ × ℚ)
      (assumptions : List String) (notes : List String) (pdf_url : Option String)
deriving DecidableEq

/-- The assumptions list of the mock payload. -/
def mockAssumptions : List String :=
  ["Electricity price held constant in real terms",
   "Typical seasonal efficiency assumed for system type and emitters",
   "No fabric upgrades included unless stated"]

/-- The single notes entry of the mock payload, chosen by the truthiness of
the parsed `annual_spend_eur`. -/
def spendNote (o : Option ℚ) : String :=
  if truthyOptNum o then "Annual spend provided: confidence increased."
  else "Annual spend missing: results rely on typical consumption estimates."

/-- The `POST` handler of `app/api/evaluate/route.ts`: HTTP status and JSON
body as a function of the request body.  On schema failure: 400 with
`{ error: "Invalid input", details }` (the issue list; the route renders it
through `.flatten()`).  On success: 200 with the mock payload. -/
def evaluatePOST (r : RawInput) : Nat × ApiBody :=
  match clearHeatSafeParse r with
  | .error es => (400, .invalid "Invalid input" es)
  | .ok v =>
    (200, .payload "LIKELY" (Rat.divInt 78 100) (300, 900) (8, 14) mockAssumptions
      [spendNote v.annual_spend_eur] none)

/-! ## Concrete inputs

`sampleRaw` mirrors the wizard's `defaultValues`; variants of it are used to
exercise the validator on concrete data. -/

/-- The wizard's default form values, as a raw input bag. -/
def sampleRaw : RawInput :=
  { ber_band := .str "C", floor_area_m2 := .num 120, emitters := .str "radiators",
    heating_pattern := .str "normal", wood_use := .str "none", occupants := .num 2,
    fuel_type := .str "kerosene", fuel_price_eur_per_unit := .num (Rat.divInt 11 10),
    electricity_price_eur_per_kwh := .num (Rat.divInt 7 20),
    boiler_efficiency := .num (Rat.divInt 17 20),
    hp_quote_eur := .num 12000, grant_applied := .bool true, grant_value_eur := .num 6500,
    bill_mode := .str "annual_spend", annual_fuel_use := .undef,
    annual_spend_eur := .num 2400 }

/-- The typed value `sampleRaw` parses to. -/
def sampleInput : ClearHeatInput :=
  { ber_band := "C", floor_area_m2 := 120, emitters := "radiators",
    heating_pattern := "normal", wood_use := "none", occupants := 2,
    fuel_type := "kerosene", fuel_price_eur_per_unit := Rat.divInt 11 10,
    electricity_price_eur_per_kwh := Rat.divInt 7 20, boiler_efficiency := Rat.divInt 17 20,
    hp_quote_eur := 12000, grant_applied := true, grant_value_eur := 6500,
    bill_mode := "annual_spend", annual_fuel_use := none,
    annual_spend_eur := some 2400 }

/-- The wizard state on Step 3, before submission, with no cached inputs. -/
def step3State : WizardState :=
  { step := 2, reportReady := false, loading := false, lastInputs := none }

/-- `sampleRaw` with the spend field removed (while `bill_mode` still
selects it). -/
def rC2 : RawInput := { sampleRaw with annual_spend_eur := .undef }

/-- The typed value the object layer parses `rC2` to. -/
def vC2 : ClearHeatInput := { sampleInput with annual_spend_eur := none }

/-- The issue list of a validation outcome (empty on success). -/
def issuesOf (x : Except (List FieldError) ClearHeatInput) : List FieldError :=
  match x with
  | .error es => es
  | .ok _ => []

/-- `sampleRaw` with a non-numeric `floor_area_m2` (a type-level, aborted
failure) and the spend field removed, so that a field aborts while the
cross-field constraint is violated at the same time. -/
def rC3 : RawInput :=
  { sampleRaw with floor_area_m2 := .str "abc", annual_spend_eur := .undef }

/-- `sampleRaw` with `bill_mode = none` and the optional `annual_fuel_use`
given as the empty string. -/
def rC4empty : RawInput :=
  { sampleRaw with
    bill_mode := .str "none"
    annual_spend_eur := .undef
    annual_fuel_use := .str "" }

/-- `rC4empty` with `annual_fuel_use` genuinely absent instead. -/
def rC4absent : RawInput :=
  { sampleRaw with
    bill_mode := .str "none"
    annual_spend_eur := .undef
    annual_fuel_use := .undef }

/-- `sampleRaw` with `bill_mode = none` and no spend value: a second valid
input for the mock endpoint. -/
def rC8none : RawInput :=
  { sampleRaw with
    bill_mode := .str "none"
    annual_spend_eur := .undef }

/-! ## Structural lemmas about the object parse -/

/-- A field schema never aborts with an empty issue list. -/
def GoodRes (x : FieldResult α) : Prop :=
  ∀ es, x = .aborted es → es ≠ []

/-- Accumulator soundness: the value is only lost (some field aborted)
when issues exist. -/
def Collect.Abort (c : Collect α) : Prop :=
  c.val = none → c.errs ≠ []

lemma collect_init_abort (a : α) : (Collect.init a).Abort := by
  simp [Collect.init, Collect.Abort]

lemma collect_field_abort {c : Collect (α → β)} {x : FieldResult α}
    (hc : c.Abort) (hx : GoodRes x) (name : String) : (c.field name x).Abort := by
  intro hnone
  unfold Collect.field at hnone ⊢
  cases x with
  | ok a =>
    cases hv : c.val with
    | some g => rw [hv] at hnone; simp [FieldResult.value] at hnone
    | none =>
      have he := hc hv
      simp [List.append_eq_nil, he]
  | dirty a es =>
    cases hv : c.val with
    | some g => rw [hv] at hnone; simp [FieldResult.value] at hnone
    | none =>
      have he := hc hv
      simp [List.append_eq_nil, he]
  | aborted es =>
    have hes : es ≠ [] := hx es rfl
    simp [FieldResult.issues, List.append_eq_nil, List.map_eq_nil_iff, hes]

lemma goodRes_zodNumber (intReq : Bool) (lo hi : ℚ) (v : JsVal) :
    GoodRes (zodNumber intReq lo hi v) := by
  intro es h
  cases v with
  | num n =>
    simp only [zodNumber] at h
    split at h <;> simp_all
  | null => simp only [zodNumber] at h; injection h with h2; simp [← h2]
  | undef => simp only [zodNumber] at h; injection h with h2; simp [← h2]
  | bool b => simp only [zodNumber] at h; injection h with h2; simp [← h2]
  | str s => simp only [zodNumber] at h; injection h with h2; simp [← h2]

lemma goodRes_numField (lo hi : ℚ) (v : JsVal) : GoodRes (numField lo hi v) :=
  goodRes_zodNumber false lo hi (asNumber v)

lemma goodRes_occupantsField (v : JsVal) : GoodRes (occupantsField v) :=
  goodRes_zodNumber true 1 20 (asNumber v)

lemma goodRes_map_some {x : FieldResult ℚ} (hx : GoodRes x) :
    GoodRes (x.map some) := by
  intro es h
  cases x with
  | ok a => simp [FieldResult.map] at h
  | dirty a es2 => simp [FieldResult.map] at h
  | aborted e =>
    have he : es = e := by simpa [FieldResult.map] using h.symm
    exact he ▸ hx e rfl

lemma goodRes_numOptField (lo hi : ℚ) (v : JsVal) : GoodRes (numOptField lo hi v) := by
  intro es h
  unfold numOptField at h
  cases v with
  | undef => simp at h
  | null => exact goodRes_map_some (goodRes_numField lo hi _) es h
  | bool b => exact goodRes_map_some (goodRes_numField lo hi _) es h
  | num q => exact goodRes_map_some (goodRes_numField lo hi _) es h
  | str s => exact goodRes_map_some (goodRes_numField lo hi _) es h

lemma goodRes_boolField (v : JsVal) : GoodRes (boolField v) := by
  intro es h
  unfold boolField at h
  cases hb : boolPre v with
  | bool b => rw [hb] at h; simp [zodBoolean] at h
  | undef => rw [hb] at h; simp only [zodBoolean] at h; injection h with h2; simp [← h2]
  | null => rw [hb] at h; simp only [zodBoolean] at h; injection h with h2; simp [← h2]
  | num q => rw [hb] at h; simp only [zodBoolean] at h; injection h with h2; simp [← h2]
  | str s => rw [hb] at h; simp only [zodBoolean] at h; injection h with h2; simp [← h2]

lemma goodRes_enumField (opts : List String) (v : JsVal) : GoodRes (enumField opts v) := by
  intro es h
  cases v with
  | str s =>
    simp only [enumField] at h
    split at h
    · exact absurd h (by simp)
    · injection h with h2; simp [← h2]
  | null => simp only [enumField] at h; injection h with h2; simp [← h2]
  | undef => simp only [enumField] at h; injection h with h2; simp [← h2]
  | bool b => simp only [enumField] at h; injection h with h2; simp [← h2]
  | num q => simp only [enumField] at h; injection h with h2; simp [← h2]

lemma parseFields_abort (r : RawInput) : (parseFields r).Abort := by
  unfold parseFields
  refine collect_field_abort ?_ (goodRes_numOptField _ _ _) _
  refine collect_field_abort ?_ (goodRes_numOptField _ _ _) _
  refine collect_field_abort ?_ (goodRes_enumField _ _) _
  refine collect_field_abort ?_ (goodRes_numField _ _ _) _
  refine collect_field_abort ?_ (goodRes_boolField _) _
  refine collect_field_abort ?_ (goodRes_numField _ _ _) _
  refine collect_field_abort ?_ (goodRes_numField _ _ _) _
  refine collect_field_abort ?_ (goodRes_numField _ _ _) _
  refine collect_field_abort ?_ (goodRes_numField _ _ _) _
  refine collect_field_abort ?_ (goodRes_enumField _ _) _
  refine collect_field_abort ?_ (goodRes_occupantsField _) _
  refine collect_field_abort ?_ (goodRes_enumField _ _) _
  refine collect_field_abort ?_ (goodRes_enumField _ _) _
  refine collect_field_abort ?_ (goodRes_enumField _ _) _
  refine collect_field_abort ?_ (goodRes_numField _ _ _) _
  refine collect_field_abort ?_ (goodRes_enumField _ _) _
  exact collect_init_abort _

lemma safeParse_of_aborted {r : RawInput} (h : (parseFields r).val = none) :
    clearHeatSafeParse r = Except.error (fieldErrs r) := by
  unfold clearHeatSafeParse
  rw [h]

lemma safeParse_of_val {r : RawInput} {v : ClearHeatInput}
    (h : (parseFields r).val = some v) :
    clearHeatSafeParse r =
      (match fieldErrs r ++ superIssues v with
        | [] => Except.ok v
        | es => Except.error es) := by
  unfold clearHeatSafeParse
  rw [h]

lemma objectParse_ok_iff {r : RawInput} {v : ClearHeatInput} :
    objectParse r = Except.ok v ↔ (parseFields r).val = some v ∧ fieldErrs r = [] := by
  unfold objectParse
  cases hv : (parseFields r).val with
  | none => simp
  | some w =>
    by_cases he : fieldErrs r = []
    · simp [he]
    · simp [he]

/-! ## Claims -/

/-- C1 (counterexample).  The claim says `grant_applied` validation fails on
any value outside the two listed coercion sets; `undefined` (a missing
`grant_applied` key) is in neither set, yet the field validator coerces it
to `false` and succeeds, because the source's loose `v == null` comparison
also matches `undefined`. -/
theorem c1_counterexample_undefined_coerces_to_false :
    boolField JsVal.undef = FieldResult.ok false := by decide

/-- C1 (amended).  `grant_applied` validation coerces `true`, `"true"`,
`"on"`, `"1"`, `1` to `true`; `false`, `"false"`, `"off"`, `"0"`, `0`,
`null`, `""` — and additionally `undefined` — to `false`; every other value
fails validation. -/
theorem c1_amended_grant_applied_coercion (v : JsVal) :
    (boolField v = FieldResult.ok true ↔
      (v = .bool true ∨ v = .str "true" ∨ v = .str "on" ∨ v = .str "1" ∨ v = .num 1))
  ∧ (boolField v = FieldResult.ok false ↔
      (v = .bool false ∨ v = .str "false" ∨ v = .str "off" ∨ v = .str "0" ∨ v = .num 0
        ∨ v = .null ∨ v = .undef ∨ v = .str ""))
  ∧ ((∃ es, boolField v = FieldResult.aborted es) ↔
      ¬(v = .bool true ∨ v = .str "true" ∨ v = .str "on" ∨ v = .str "1" ∨ v = .num 1
        ∨ v = .bool false ∨ v = .str "false" ∨ v = .str "off" ∨ v = .str "0" ∨ v = .num 0
        ∨ v = .null ∨ v = .undef ∨ v = .str "")) := by
  cases v with
  | bool b => cases b <;> simp [boolField, boolPre, zodBoolean]
  | null => simp [boolField, boolPre, zodBoolean]
  | undef => simp [boolField, boolPre, zodBoolean]
  | num q => simp only [boolField, boolPre, zodBoolean]; split_ifs <;> simp_all
  | str s =>
    by_cases h1 : s = "true"
    · subst h1; simp [boolField, boolPre, zodBoolean]
    by_cases h2 : s = "on"
    · subst h2; simp [boolField, boolPre, zodBoolean]
    by_cases h3 : s = "1"
    · subst h3; simp [boolField, boolPre, zodBoolean]
    by_cases h4 : s = "false"
    · subst h4; simp [boolField, boolPre, zodBoolean]
    by_cases h5 : s = "off"
    · subst h5; simp [boolField, boolPre, zodBoolean]
    by_cases h6 : s = "0"
    · subst h6; simp [boolField, boolPre, zodBoolean]
    by_cases h7 : s = ""
    · subst h7; simp [boolField, boolPre, zodBoolean]
    · simp [boolField, boolPre, zodBoolean, h1, h2, h3, h4, h5, h6, h7]

lemma numIssues_eq_nil (intReq : Bool) (lo hi n : ℚ) :
    numIssues intReq lo hi n = [] ↔ ((intReq = true → n.den = 1) ∧ lo ≤ n ∧ n ≤ hi) := by
  unfold numIssues
  split_ifs with h1 h2 h3 <;> simp_all [not_lt]

/-- C5.  `occupants` accepts exactly the integral rationals in `[1, 20]`
and `floor_area_m2` accepts exactly the rationals in `[20, 1000]` (so `0`,
`21`, `2.5` and `19`, `1001` are rejected; `1`, `20` and `20`, `1000` are
accepted). -/
theorem c5_occupants_floor_area_bounds (q : ℚ) :
    (occupantsField (.num q) = FieldResult.ok q ↔ q.den = 1 ∧ 1 ≤ q ∧ q ≤ 20)
  ∧ (numField 20 1000 (.num q) = FieldResult.ok q ↔ 20 ≤ q ∧ q ≤ 1000) := by
  constructor
  · simp only [occupantsField, asNumber, zodNumber]
    split_ifs with hc
    · rw [numIssues_eq_nil] at hc
      exact iff_of_true rfl ⟨hc.1 rfl, hc.2⟩
    · rw [numIssues_eq_nil] at hc
      exact iff_of_false (by simp) fun hr => hc ⟨fun _ => hr.1, hr.2⟩
  · simp only [numField, asNumber, zodNumber]
    split_ifs with hc
    · rw [numIssues_eq_nil] at hc
      exact iff_of_true rfl hc.2
    · rw [numIssues_eq_nil] at hc
      exact iff_of_false (by simp) fun hr => hc ⟨fun hft => absurd hft (by decide), hr⟩

/-- C6.  When the evaluate call fails (non-success status or transport
failure), the wizard stays on Step 3 (`step` untouched), `reportReady`
remains `false`, an alert is shown, and `loading` ends `false` so the
"Generate report" button is enabled again and the user can retry. -/
theorem c6_evaluate_failure_stays_on_step3 (s : WizardState) (v : ClearHeatInput)
    (o : EvalOutcome) (hs : s.step = 2) (hr : s.reportReady = false)
    (ho : o.isFailure = true) :
    (runModel s v o).1.step = 2
  ∧ (runModel s v o).1.reportReady = false
  ∧ (runModel s v o).1.loading = false
  ∧ ∃ m, Effect.alert m ∈ (runModel s v o).2 := by
  cases o with
  | success => simp [EvalOutcome.isFailure] at ho
  | httpError st b =>
    exact ⟨hs, hr, rfl, "Evaluation failed", by simp [runModel]⟩
  | transport m =>
    exact ⟨hs, hr, rfl, m, by simp [runModel]⟩
  | badJson m =>
    exact ⟨hs, hr, rfl, m, by simp [runModel]⟩

/-- Witness for C6 at the concrete Step-3 state and an HTTP 500 outcome. -/
theorem c6_witness :
    (runModel step3State sampleInput (EvalOutcome.httpError 500 "")).1.step = 2
  ∧ (runModel step3State sampleInput (EvalOutcome.httpError 500 "")).1.reportReady = false
  ∧ (runModel step3State sampleInput (EvalOutcome.httpError 500 "")).1.loading = false
  ∧ ∃ m, Effect.alert m ∈ (runModel step3State sampleInput (EvalOutcome.httpError 500 "")).2 :=
  c6_evaluate_failure_stays_on_step3 step3State sampleInput (EvalOutcome.httpError 500 "")
    rfl rfl rfl

/-- C7.  After a successful evaluate call for inputs `v`, the download
action POSTs exactly `v` (the cached finalized inputs) to `/pdf` and saves
the response under the fixed name `clearheat_report.pdf`; it changes no
wizard state, can be repeated with the same result, and never re-submits
`/run` (nor re-validates: validation is not part of `downloadPdf`). -/
theorem c7_download_repeatable_same_inputs (s : WizardState) (v : ClearHeatInput) :
    Effect.postRun v ∈ (runModel s v .success).2
  ∧ downloadPdf (runModel s v .success).1 =
      ((runModel s v .success).1,
        [Effect.postPdf v, Effect.saveFileAs "clearheat_report.pdf"])
  ∧ downloadPdf (downloadPdf (runModel s v .success).1).1 =
      ((runModel s v .success).1,
        [Effect.postPdf v, Effect.saveFileAs "clearheat_report.pdf"])
  ∧ ∀ w, Effect.postRun w ∉ (downloadPdf (runModel s v .success).1).2 := by
  refine ⟨by simp [runModel], rfl, rfl, ?_⟩
  intro w hw
  simp [runModel, downloadPdf] at hw

/-- C9.  While no submission has cached inputs (`lastInputs` is null), the
download action is a no-op: no request, no file save, no state change. -/
theorem c9_download_noop_without_inputs (s : WizardState) (h : s.lastInputs = none) :
    downloadPdf s = (s, []) := by
  simp [downloadPdf, h]

/-- Witness for C9 at the initial wizard state. -/
theorem c9_witness : downloadPdf initialWizardState = (initialWizardState, []) :=
  c9_download_noop_without_inputs initialWizardState rfl

/-- C10.  `runModel` caches the submitted values in `lastInputs` under every
outcome — a failed evaluate call does not restore the previous value — and a
subsequent download therefore POSTs the most recently submitted values. -/
theorem c10_lastInputs_cached_on_every_outcome (s : WizardState) (v : ClearHeatInput)
    (o : EvalOutcome) :
    (runModel s v o).1.lastInputs = some v
  ∧ downloadPdf (runModel s v o).1 =
      ((runModel s v o).1, [Effect.postPdf v, Effect.saveFileAs "clearheat_report.pdf"]) := by
  cases o <;> exact ⟨rfl, rfl⟩

lemma safeParse_of_ok {r : RawInput} {v : ClearHeatInput}
    (h : objectParse r = Except.ok v) :
    clearHeatSafeParse r =
      (match superIssues v with
        | [] => Except.ok v
        | es => Except.error es) := by
  obtain ⟨hval, herr⟩ := objectParse_ok_iff.mp h
  rw [safeParse_of_val hval, herr, List.nil_append]

lemma safeParse_of_ok_nil {r : RawInput} {v : ClearHeatInput}
    (h : objectParse r = Except.ok v) (hsi : superIssues v = []) :
    clearHeatSafeParse r = Except.ok v := by
  rw [safeParse_of_ok h, hsi]

lemma safeParse_of_ok_cons {r : RawInput} {v : ClearHeatInput} {e : FieldError}
    {es : List FieldError}
    (h : objectParse r = Except.ok v) (hsi : superIssues v = e :: es) :
    clearHeatSafeParse r = Except.error (e :: es) := by
  rw [safeParse_of_ok h, hsi]

/-- C2.  On inputs whose per-field values all validate: with
`bill_mode = annual_spend` and `annual_spend_eur` absent, validation fails
with an error at path `annual_spend_eur`; symmetrically for
`bill_mode = annual_fuel_use` / `annual_fuel_use`; and with
`bill_mode = none` validation succeeds regardless of either field. -/
theorem c2_bill_mode_cross_field (r : RawInput) (v : ClearHeatInput)
    (h : objectParse r = Except.ok v) :
    (v.bill_mode = "annual_spend" → v.annual_spend_eur = none →
      ∃ es, clearHeatSafeParse r = Except.error es
        ∧ ∃ e ∈ es, e.path = ["annual_spend_eur"])
  ∧ (v.bill_mode = "annual_fuel_use" → v.annual_fuel_use = none →
      ∃ es, clearHeatSafeParse r = Except.error es
        ∧ ∃ e ∈ es, e.path = ["annual_fuel_use"])
  ∧ (v.bill_mode = "none" → clearHeatSafeParse r = Except.ok v) := by
  refine ⟨?_, ?_, ?_⟩
  · intro hb hsp
    have hsi : superIssues v =
        [FieldError.mk ["annual_spend_eur"] "Required when bill_mode is annual_spend"] := by
      simp [superIssues, hb, hsp]
    exact ⟨_, safeParse_of_ok_cons h hsi,
      ⟨FieldError.mk ["annual_spend_eur"] "Required when bill_mode is annual_spend",
        by simp, rfl⟩⟩
  · intro hb hfu
    have hsi : superIssues v =
        [FieldError.mk ["annual_fuel_use"] "Required when bill_mode is annual_fuel_use"] := by
      simp [superIssues, hb, hfu]
    exact ⟨_, safeParse_of_ok_cons h hsi,
      ⟨FieldError.mk ["annual_fuel_use"] "Required when bill_mode is annual_fuel_use",
        by simp, rfl⟩⟩
  · intro hb
    have hsi : superIssues v = [] := by simp [superIssues, hb]
    exact safeParse_of_ok_nil h hsi

/-- Witness for C2: on `rC2` validation fails at path `annual_spend_eur`. -/
theorem c2_witness :
    ∃ es, clearHeatSafeParse rC2 = Except.error es
      ∧ ∃ e ∈ es, e.path = ["annual_spend_eur"] :=
  (c2_bill_mode_cross_field rC2 vC2 (by decide)).1 rfl rfl

/-- C3 (counterexample).  On `rC3` the `floor_area_m2` field fails at the
type level (a non-numeric string — the parse aborts, no value exists) while
the cross-field constraint is also violated (`bill_mode = annual_spend`
with `annual_spend_eur` absent), yet the error list contains only the
field-level type issue and no error at path `annual_spend_eur`: Zod skips
`superRefine` when the inner object parse aborted, so the claim that every
violated constraint is reported is false at this input. -/
theorem c3_counterexample_cross_field_issue_dropped :
    clearHeatSafeParse rC3 =
      Except.error [FieldError.mk ["floor_area_m2"] (numTypeMsg "string")]
  ∧ rC3.bill_mode = JsVal.str "annual_spend"
  ∧ rC3.annual_spend_eur = JsVal.undef
  ∧ ∀ e ∈ issuesOf (clearHeatSafeParse rC3), e.path ≠ ["annual_spend_eur"] := by decide

/-- C3 (amended).  Validation returns the fully-typed value or an error
list, and it succeeds exactly when no issue was raised.  On failure every
violated field-level constraint is listed — `fieldErrs r` concatenates
every field's issues in declaration order, no field short-circuits another
— and the cross-field (`superRefine`) issues are appended after them
whenever the typed value could be built, which includes inputs whose fields
failed only range/integrality checks.  Only when some field fails at the
type level (`(parseFields r).val = none`, its value unavailable) is the
cross-field check skipped, the error list then being exactly the field
issues. -/
theorem c3_amended_all_field_errors_reported (r : RawInput) :
    ((parseFields r).val = none ∧ fieldErrs r ≠ []
        ∧ clearHeatSafeParse r = Except.error (fieldErrs r))
  ∨ (∃ v, (parseFields r).val = some v ∧ fieldErrs r = [] ∧ superIssues v = []
        ∧ clearHeatSafeParse r = Except.ok v)
  ∨ (∃ v, (parseFields r).val = some v ∧ fieldErrs r ++ superIssues v ≠ []
        ∧ clearHeatSafeParse r = Except.error (fieldErrs r ++ superIssues v)) := by
  cases hval : (parseFields r).val with
  | none =>
    exact Or.inl ⟨rfl, parseFields_abort r hval, safeParse_of_aborted hval⟩
  | some v =>
    cases hcomb : fieldErrs r ++ superIssues v with
    | nil =>
      obtain ⟨h1, h2⟩ := List.append_eq_nil.mp hcomb
      refine Or.inr (Or.inl ⟨v, rfl, h1, h2, ?_⟩)
      rw [safeParse_of_val hval, hcomb]
    | cons e es =>
      refine Or.inr (Or.inr ⟨v, rfl, by simp [hcomb], ?_⟩)
      rw [safeParse_of_val hval, hcomb]

/-- C4 (counterexample).  On an optional numeric field an empty string is
not treated as "not provided": `""` preprocesses to `undefined` *inside*
the `.optional()` wrapper (which only inspects the raw value), so the inner
`z.number()` rejects it with `Required`, while a genuinely absent value
succeeds.  The whole-schema runs differ on otherwise-valid input. -/
theorem c4_counterexample_optional_empty_string :
    numOptField 0 500000 (JsVal.str "") = FieldResult.aborted [requiredMsg]
  ∧ numOptField 0 500000 JsVal.undef = FieldResult.ok none
  ∧ (clearHeatSafeParse rC4empty).isOk = false
  ∧ (clearHeatSafeParse rC4absent).isOk = true := by decide

/-- C4 (amended).  For the `num` / `numOpt` field builders: a string that
trims to empty yields the same `Required` error as an absent value on a
required field — and also yields a `Required` error (rather than absence)
on an optional field; a numeric-literal string is coerced to its number and
then bound-checked; and an out-of-range number is rejected with the
bound-specific `min`/`max` message. -/
theorem c4_amended_numeric_coercion (lo hi : ℚ) (s : String) (n q : ℚ) :
    (jsTrim s = "" →
      numField lo hi (JsVal.str s) = FieldResult.aborted [requiredMsg]
      ∧ numOptField lo hi (JsVal.str s) = FieldResult.aborted [requiredMsg])
  ∧ numField lo hi JsVal.undef = FieldResult.aborted [requiredMsg]
  ∧ (jsTrim s ≠ "" → parseJsNumber (jsTrim s) = some n →
      numField lo hi (JsVal.str s) = zodNumber false lo hi (JsVal.num n))
  ∧ (lo ≤ hi → q < lo →
      numField lo hi (JsVal.num q) = FieldResult.dirty q [minMsg lo])
  ∧ (lo ≤ q → hi < q →
      numField lo hi (JsVal.num q) = FieldResult.dirty q [maxMsg hi]) := by
  refine ⟨?_, rfl, ?_, ?_, ?_⟩
  · intro ht
    constructor
    · simp [numField, asNumber, ht, zodNumber]
    · simp [numOptField, numField, asNumber, ht, zodNumber, FieldResult.map]
  · intro ht hp
    simp [numField, asNumber, ht, hp]
  · intro hlh hlt
    have hnot : ¬ hi < q := not_lt.mpr (le_of_lt (lt_of_lt_of_le hlt hlh))
    simp [numField, asNumber, zodNumber, numIssues, hlt, hnot]
  · intro hge hlt
    have hnot : ¬ q < lo := not_lt.mpr hge
    simp [numField, asNumber, zodNumber, numIssues, hlt, hnot]

/-- Witness for C4 at concrete inputs: a blank string, an empty string on
an optional field, a decimal string, and out-of-range numbers on the
`floor_area_m2` bounds. -/
theorem c4_witness :
    numField 20 1000 (JsVal.str " ") = FieldResult.aborted [requiredMsg]
  ∧ numOptField 0 500000 (JsVal.str "") = FieldResult.aborted [requiredMsg]
  ∧ numField 20 1000 (JsVal.str "25.5") = FieldResult.ok (Rat.divInt 51 2)
  ∧ numField 20 1000 (JsVal.num 19) = FieldResult.dirty 19 [minMsg 20]
  ∧ numField 20 1000 (JsVal.num 1001) = FieldResult.dirty 1001 [maxMsg 1000] := by
  refine ⟨((c4_amended_numeric_coercion 20 1000 " " 0 0).1 (by decide)).1,
    ((c4_amended_numeric_coercion 0 500000 "" 0 0).1 (by decide)).2, ?_, ?_, ?_⟩
  · exact ((c4_amended_numeric_coercion 20 1000 "25.5" (Rat.divInt 51 2) 0).2.2.1
      (by decide) (by decide)).trans (by decide)
  · exact (c4_amended_numeric_coercion 20 1000 "" 0 19).2.2.2.1 (by decide) (by decide)
  · exact (c4_amended_numeric_coercion 20 1000 "" 0 1001).2.2.2.2 (by decide) (by decide)

/-- C8 (counterexample).  Two valid requests to the mock endpoint both get
HTTP 200 but different payloads: the single `notes` entry depends on the
truthiness of `annual_spend_eur`, so the success payload is not the same
for every valid input. -/
theorem c8_counterexample_payload_not_fixed :
    (evaluatePOST sampleRaw).1 = 200
  ∧ (evaluatePOST rC8none).1 = 200
  ∧ (evaluatePOST sampleRaw).2 ≠ (evaluatePOST rC8none).2 := by decide

/-- C8 (amended).  `POST /api/evaluate` returns 400 with
`{ error: "Invalid input", details }` exactly when the schema rejects the
body, and 200 with the mock payload otherwise; the payload's verdict,
confidence, ranges, assumptions and null `pdf_url` are fixed, and its only
input-dependent part is the single `notes` entry, chosen by the truthiness
of the parsed `annual_spend_eur` (so two valid inputs with equally-truthy
spend values get identical responses). -/
theorem c8_amended_mock_endpoint_contract :
    (∀ r es, clearHeatSafeParse r = Except.error es →
      evaluatePOST r = (400, ApiBody.invalid "Invalid input" es))
  ∧ (∀ r v, clearHeatSafeParse r = Except.ok v →
      evaluatePOST r = (200, ApiBody.payload "LIKELY" (Rat.divInt 78 100) (300, 900) (8, 14)
        mockAssumptions [spendNote v.annual_spend_eur] none))
  ∧ (∀ r1 r2 v1 v2, clearHeatSafeParse r1 = Except.ok v1 →
      clearHeatSafeParse r2 = Except.ok v2 →
      truthyOptNum v1.annual_spend_eur = truthyOptNum v2.annual_spend_eur →
      evaluatePOST r1 = evaluatePOST r2) := by
  have h400 : ∀ r es, clearHeatSafeParse r = Except.error es →
      evaluatePOST r = (400, ApiBody.invalid "Invalid input" es) := by
    intro r es h
    unfold evaluatePOST
    rw [h]
  have h200 : ∀ r v, clearHeatSafeParse r = Except.ok v →
      evaluatePOST r = (200, ApiBody.payload "LIKELY" (Rat.divInt 78 100) (300, 900) (8, 14)
        mockAssumptions [spendNote v.annual_spend_eur] none) := by
    intro r v h
    unfold evaluatePOST
    rw [h]
  refine ⟨h400, h200, ?_⟩
  intro r1 r2 v1 v2 h1 h2 ht
  rw [h200 r1 v1 h1, h200 r2 v2 h2]
  simp [spendNote, ht]

/-- Witness for C8 at concrete requests: an invalid one (spend selected but
absent) and a valid one. -/
theorem c8_witness :
    evaluatePOST rC2 = (400, ApiBody.invalid "Invalid input"
      [FieldError.mk ["annual_spend_eur"] "Required when bill_mode is annual_spend"])
  ∧ evaluatePOST sampleRaw = (200, ApiBody.payload "LIKELY" (Rat.divInt 78 100) (300, 900)
      (8, 14) mockAssumptions [spendNote (some 2400)] none) :=
  ⟨c8_amended_mock_endpoint_contract.1 rC2 _ (by decide),
   c8_amended_mock_endpoint_contract.2.1 sampleRaw sampleInput (by decide)⟩
